import Mathlib

/-!
Shallow embedding of `ncempy/io/mrc.py` (MRC volumetric file reader/writer).

Modelling conventions:
* int32 header words are carried as `Int`, float32 header words and sample
  values as `Rat` (the float arithmetic the claims exercise — products,
  quotients, min/max/mean of small integer data, `pixel_size * 1e10` — is
  exact at the granularity the claims state).
* numpy `fromfile` slices are modelled by the lists a file region decodes to;
  slicing (`a[i:j]`) is `drop`/`take`, which like numpy never fails and may
  return a short list; scalar indexing (`a[i]`) is partial and modelled with
  `Option` (Python raises `IndexError` out of range).
* Fallible code returns `Option`/`Except`; a Python exception is a `none`/
  `.error` result.
-/

namespace MRC

/-- The four sample types supported by the reader/writer (numpy dtypes). -/
inductive MRCDataType
  | int8
  | int16
  | float32
  | uint16
deriving DecidableEq, Repr

/-- `fileMRC._getMRCType`: maps the MRC type code to a numpy dtype.
Codes 0/1/2/6 map to int8/int16/float32/uint16.  Any other code only prints a
diagnostic and leaves the local variable `Type` unset, so the `return Type`
raises `UnboundLocalError`: the call fails, modelled as `none`. -/
def _getMRCType (dataType : Int) : Option MRCDataType :=
  if dataType = 0 then some MRCDataType.int8
  else if dataType = 1 then some MRCDataType.int16
  else if dataType = 2 then some MRCDataType.float32
  else if dataType = 6 then some MRCDataType.uint16
  else none

/-- The raw header regions `fileMRC.parseHeader` reads with `np.fromfile`,
in file order:
* `head1`: 10 int32 words at byte 0,
* `head2`: 6 float32 words at byte 40,
* `axisOrientations`: 3 int32 words at byte 64,
* `minMaxMean`: 3 int32 words at byte 76 (read, never used),
* `extra`: 34 int32 words at byte 88,
* `fei`: the float32 words decoded from byte 1024 onwards (read only when
  `extra[1] ≠ 0`; `np.fromfile(count=15)` returns at most 15 of them). -/
structure RawHeader where
  head1 : List Int
  head2 : List Rat
  axisOrientations : List Int
  minMaxMean : List Int
  extra : List Int
  fei : List Rat
deriving DecidableEq, Repr

/-- The fields `fileMRC.parseHeader` leaves on `self` (post-reversal, i.e. as
handed to `getDataset` and the user). -/
structure ParsedMRC where
  dataSize : List Int
  dataType : MRCDataType
  gridSize : List Int
  volumeSize : List Rat
  voxelSize : List Rat
  cellAngles : List Rat
  axisOrientations : List Int
  Shape : List Int
  minMaxMean : List Int
  extra : List Int
  feiPixelSize : Option Rat
  dataOffset : Int
deriving DecidableEq, Repr

/-- `numpy_array.any() == 0` for a float array: true iff every element is 0
(`any()` is a bool, and `bool == 0` holds exactly when `any()` is `False`). -/
def allZeroR (l : List Rat) : Bool := l.all (fun x => x == 0)

/-- `numpy_array.any() == 0` for an int array. -/
def allZeroI (l : List Int) : Bool := l.all (fun x => x == 0)

/-- Python/numpy scalar indexing `l[i]` with an `Int` index: nonnegative
indices from the front, negative indices from the back, `IndexError`
(= `none`) out of range. -/
def npGet (l : List Int) (i : Int) : Option Int :=
  if 0 ≤ i then l[i.toNat]?
  else if (-i).toNat ≤ l.length then l[l.length - (-i).toNat]?
  else none

/-- The list comprehension `[dataSize[x-1] for x in axisOrientations]`:
elements are produced left to right and the first out-of-range index raises
(= `none` for the whole comprehension). -/
def npGetAll (dataSize : List Int) : List Int → Option (List Int)
  | [] => some []
  | x :: xs =>
    match npGet dataSize (x - 1), npGetAll dataSize xs with
    | some v, some vs => some (v :: vs)
    | _, _ => none

/-- `fileMRC.parseHeader`, translated line by line from the source:
`dataSize = head1[0:3]`, `mrcType = head1[3]`, dtype lookup, `gridSize =
head1[7:10]`, `volumeSize = head2[0:3]`, the voxel-size derivation
(`[1,1,1]` when `volumeSize.any()==0 or gridSize.any()==0`, else the
elementwise quotient), `cellAngles = head2[3:6]`,
`Shape = [dataSize[x-1] for x in axisOrientations]`, then reversal (`[::-1]`)
of every useful field, then — after `seek(1024)` — the FEI block when
`extra[1] != 0` (15 float32 words; `voxelSize[0]=1`,
`voxelSize[1]=voxelSize[2]=pixel_size*1e10`), and finally
`dataOffset = 1024 + extra[1]`. -/
def parseHeader (h : RawHeader) : Option ParsedMRC :=
  let dataSize := h.head1.take 3
  match h.head1[3]? with
  | none => none
  | some mrcType =>
    match _getMRCType mrcType with
    | none => none
    | some dataType =>
      let gridSize := (h.head1.drop 7).take 3
      let volumeSize := h.head2.take 3
      let voxelSize :=
        if allZeroR volumeSize || allZeroI gridSize then [1, 1, 1]
        else List.zipWith (fun a b => a / b) volumeSize
          (gridSize.map (fun z => (z : Rat)))
      let cellAngles := (h.head2.drop 3).take 3
      match npGetAll dataSize h.axisOrientations with
      | none => none
      | some shape0 =>
        match h.extra[1]? with
        | none => none
        | some extraWC =>
          if extraWC ≠ 0 then
            -- the FEIinfo dict indexes FEIinfoValues[0] .. FEIinfoValues[14],
            -- so fewer than 15 decoded words is an IndexError
            if h.fei.length < 15 then none
            else
              let ps := h.fei.getD 11 0
              some {
                dataSize := dataSize.reverse
                dataType := dataType
                gridSize := gridSize.reverse
                volumeSize := volumeSize.reverse
                voxelSize := ((voxelSize.reverse.set 0 1).set 1
                    (ps * 10000000000)).set 2 (ps * 10000000000)
                cellAngles := cellAngles.reverse
                axisOrientations := h.axisOrientations.reverse
                Shape := shape0.reverse
                minMaxMean := h.minMaxMean
                extra := h.extra
                feiPixelSize := some ps
                dataOffset := 1024 + extraWC }
          else
            some {
              dataSize := dataSize.reverse
              dataType := dataType
              gridSize := gridSize.reverse
              volumeSize := volumeSize.reverse
              voxelSize := voxelSize.reverse
              cellAngles := cellAngles.reverse
              axisOrientations := h.axisOrientations.reverse
              Shape := shape0.reverse
              minMaxMean := h.minMaxMean
              extra := h.extra
              feiPixelSize := none
              dataOffset := 1024 + extraWC }

/-- `np.prod` of an int list (left fold, initial 1). -/
def prodI (l : List Int) : Int := l.foldl (fun a b => a * b) 1

/-- `fileMRC.getDataset`: seek to `dataOffset`, read
`np.prod(dataSize)` elements, reshape to `Shape`.  `fileData` is the element
stream decoded from the file starting at `dataOffset` (`np.fromfile` returns
at most `count` elements, hence `take`); numpy `reshape` succeeds iff the
element count equals the product of the (nonnegative) target shape. -/
def getDataset (p : ParsedMRC) (fileData : List Rat) : Option (List Int × List Rat) :=
  let data1 := fileData.take (prodI p.dataSize).toNat
  if (data1.length : Int) = prodI p.Shape then some (p.Shape, data1) else none

/-- numpy dtypes a caller may hand to `mrcWriter`: the four supported ones
plus anything else. -/
inductive NPDType
  | int8
  | int16
  | uint16
  | float32
  | other
deriving DecidableEq, Repr

/-- Failure modes of `mrcWriter`.  `dimensionError` is the
`"Too many dimensions" / return 0` path, `nonContiguous` the C-contiguity
`return 0` path, `unsupportedType` the dtype `return 0` path;
`indexError`/`valueError` are Python exceptions escaping (`stack.shape[2]` on
an array of fewer than 3 dimensions, `pixelSize[2]` on a short tuple,
`np.min` of an empty array). -/
inductive WriteErr
  | dimensionError
  | nonContiguous
  | unsupportedType
  | indexError
  | valueError
deriving DecidableEq, Repr

/-- The writer's dtype-to-code dispatch (lines 357-367): float32 → 2,
uint16 → 6, int16 → 1, int8 → 0, anything else prints and returns 0. -/
def dtypeCodeOf : NPDType → Option Int
  | NPDType.float32 => some 2
  | NPDType.uint16 => some 6
  | NPDType.int16 => some 1
  | NPDType.int8 => some 0
  | NPDType.other => none

/-- `np.min` of a nonempty array (the writer guards against the empty case
before this is used). -/
def listMin : List Rat → Rat
  | [] => 0
  | x :: xs => xs.foldl min x

/-- `np.max` of a nonempty array. -/
def listMax : List Rat → Rat
  | [] => 0
  | x :: xs => xs.foldl max x

/-- `np.mean`: sum divided by element count. -/
def listMean (l : List Rat) : Rat := l.sum / l.length

/-- `np.ascontiguousarray` returns the array itself when it is already
C-contiguous.  `mrcWriter`'s contiguity check (line 338) precedes the one
call site (line 406), so that precondition always holds there and the model
is the identity on the flat C-order contents. -/
def npAscontiguousarray (stack : List Rat) : List Rat := stack

/-- The bytes `[68, 65, 0, 0]` written at byte offset 212 (line 401), read
back as the little-endian int32 word at index 31 of the 34-word `extra`
block (byte 212 = 88 + 4·31): 68 + 65·256. -/
def endianWordLE : Int := 68 + 65 * 256

/-- The file `mrcWriter` produces, by header region (same regions the reader
decodes): `head1` = 10 int32 words at byte 0, `cellDims` = 3 float32 words at
byte 40, `cellAngles` = 3 float32 words at byte 52, `axisOrder` = 3 int32
words at byte 64, `minMaxMean` = 3 float32 words at byte 76, `extra` = the
34 int32 words at byte 88 (zero-initialised, with the endianness marker
landing inside it at word 31), `data` = the sample stream at byte 1024. -/
structure WrittenMRC where
  head1 : List Int
  cellDims : List Rat
  cellAngles : List Rat
  axisOrder : List Int
  minMaxMean : List Rat
  extra : List Int
  data : List Rat
deriving DecidableEq, Repr

/-- `mrcWriter(filename, stack, pixelSize, forceWrite)`, translated step by
step: the `len(stack.shape) > 3` check, the C-contiguity check, the
zero-filled 1024-byte header, `header1[0..2] = shape[2], shape[1], shape[0]`,
the dtype dispatch, `header1[7..9]` = the same dims, the cell dimensions
`pixelSize[2]*shape[2], pixelSize[1]*shape[1], pixelSize[0]*shape[0]`, cell
angles `[90,90,90]`, axis order `[1,2,3]`, min/max/mean of the full stack,
the endianness marker at byte 212, and the data write at byte 1024 (through
`np.ascontiguousarray` when `forceWrite`).  `stack` is the flat C-order
contents, `shape` its `.shape`, `cContiguous` its `C_CONTIGUOUS` flag. -/
def mrcWriter (shape : List Nat) (dtype : NPDType) (cContiguous : Bool)
    (stack : List Rat) (pixelSize : List Rat) (forceWrite : Bool) :
    Except WriteErr WrittenMRC :=
  if shape.length > 3 then Except.error WriteErr.dimensionError
  else if cContiguous = false then Except.error WriteErr.nonContiguous
  else
    match (shape[2]? : Option Nat) with
    | none => Except.error WriteErr.indexError
    | some s2 =>
      match (shape[1]? : Option Nat) with
      | none => Except.error WriteErr.indexError
      | some s1 =>
        match (shape[0]? : Option Nat) with
        | none => Except.error WriteErr.indexError
        | some s0 =>
          match dtypeCodeOf dtype with
          | none => Except.error WriteErr.unsupportedType
          | some code =>
            match pixelSize[2]? with
            | none => Except.error WriteErr.indexError
            | some p2 =>
              match pixelSize[1]? with
              | none => Except.error WriteErr.indexError
              | some p1 =>
                match pixelSize[0]? with
                | none => Except.error WriteErr.indexError
                | some p0 =>
                  match stack with
                  | [] => Except.error WriteErr.valueError
                  | x :: xs =>
                    Except.ok {
                      head1 := [(s2 : Int), s1, s0, code, 0, 0, 0, s2, s1, s0]
                      cellDims := [p2 * s2, p1 * s1, p0 * s0]
                      cellAngles := [90, 90, 90]
                      axisOrder := [1, 2, 3]
                      minMaxMean :=
                        [listMin (x :: xs), listMax (x :: xs), listMean (x :: xs)]
                      extra := (List.replicate 34 (0 : Int)).set 31 endianWordLE
                      data := if forceWrite then npAscontiguousarray (x :: xs)
                              else x :: xs }

/-- A header word: an int32 or a float32 (the writer interleaves both). -/
inductive HWord
  | i (v : Int)
  | f (v : Rat)
deriving DecidableEq, Repr

/-- The 256-word (1024-byte) header of a written file laid out by word index:
word `k` occupies bytes `4k .. 4k+3`.  Words 0-9 `head1`, 10-12 cell
dimensions, 13-15 cell angles, 16-18 axis order, 19-21 min/max/mean,
22-55 the `extra` block, 56-255 untouched zeros. -/
def headerWords (w : WrittenMRC) : List HWord :=
  w.head1.map HWord.i ++ w.cellDims.map HWord.f ++ w.cellAngles.map HWord.f
    ++ w.axisOrder.map HWord.i ++ w.minMaxMean.map HWord.f
    ++ w.extra.map HWord.i ++ List.replicate 200 (HWord.i 0)

/-- Byte-level correspondence between the regions `mrcWriter` wrote and the
regions `parseHeader` reads back: bytes 0-39 int32 are `head1`; bytes 40-63
float32 are cell dims ++ cell angles; bytes 64-75 int32 the axis order;
bytes 76-87, written as three float32 stats, are re-read as three int32
(`mm` is that reinterpretation — the parser stores and never uses it, so it
is a parameter); bytes 88-223 int32 are the `extra` block; the writer puts
sample data, not a vendor block, at byte 1024, and since `extra[1] = 0` the
parser never decodes floats there (`fei := []`). -/
def rawOfWritten (w : WrittenMRC) (mm : List Int) : RawHeader :=
  { head1 := w.head1
    head2 := w.cellDims ++ w.cellAngles
    axisOrientations := w.axisOrder
    minMaxMean := mm
    extra := w.extra
    fei := [] }

/-- A concrete plain header: file-order dims `[4,5,6]` (column, row,
section), type code 0 (int8), grid `[4,5,6]`, axis order `[1,2,3]`, no
vendor extension. -/
def rawPlain : RawHeader :=
  { head1 := [4, 5, 6, 0, 0, 0, 0, 4, 5, 6]
    head2 := [1, 1, 1, 90, 90, 90]
    axisOrientations := [1, 2, 3]
    minMaxMean := [0, 0, 0]
    extra := List.replicate 34 0
    fei := [] }

/-- `rawPlain` with the extension-size word `extra[1]` set to 4 and a
15-word vendor block of zeros. -/
def rawExt4 : RawHeader :=
  { rawPlain with
    extra := (List.replicate 34 (0 : Int)).set 1 4
    fei := List.replicate 15 (0 : Rat) }

/-- A header whose cell-volume words and grid-size words are all zero, with
no vendor extension. -/
def rawZeroGrid : RawHeader :=
  { head1 := [1, 1, 1, 0, 0, 0, 0, 0, 0, 0]
    head2 := [0, 0, 0, 90, 90, 90]
    axisOrientations := [1, 2, 3]
    minMaxMean := [0, 0, 0]
    extra := List.replicate 34 0
    fei := [] }

/-- `rawZeroGrid` with a vendor extension present (`extra[1] = 60`) whose
`pixel_size` word (index 11) is 2. -/
def rawZeroGridExt : RawHeader :=
  { rawZeroGrid with
    extra := (List.replicate 34 (0 : Int)).set 1 60
    fei := (List.replicate 15 (0 : Rat)).set 11 2 }

/-- A header with nonzero cell volume and grid and a vendor extension
(`extra[1] = 128`) whose `pixel_size` word is 3. -/
def rawExtPs : RawHeader :=
  { head1 := [2, 2, 2, 1, 0, 0, 0, 2, 2, 2]
    head2 := [4, 4, 4, 90, 90, 90]
    axisOrientations := [1, 2, 3]
    minMaxMean := [0, 0, 0]
    extra := (List.replicate 34 (0 : Int)).set 1 128
    fei := (List.replicate 15 (0 : Rat)).set 11 3 }

/-- Python exceptions of the destructor model. -/
inductive PyErr
  | attributeError
deriving DecidableEq, Repr

/-- `fileMRC.__del__`: `if (not self.fid): self.fid.close()`.
The handle state is `none` when `self.fid` is `None` and `some closed` when
it holds a file object whose closed-flag is `closed` (Python file objects
are truthy even when closed, so `not self.fid` holds exactly when `fid` is
`None`).  On `none` the guard fires and `None.close()` raises
`AttributeError`; on a real handle the guard is false and the handle state
is returned unchanged — no close ever happens. -/
def fileMRC_del (fid : Option Bool) : Except PyErr (Option Bool) :=
  match fid with
  | none => Except.error PyErr.attributeError
  | some closed => Except.ok (some closed)


/-! ## Helper lemmas -/

/-- `getDataset` on a parsed header whose `dataSize` and `Shape` both equal
`[a,b,c]`, fed a stream of exactly `a*b*c` elements, returns the full stream
reshaped to `[a,b,c]`. -/
theorem getDataset_of_lengths (p : ParsedMRC) (d : List Rat) (a b c : Nat)
    (hds : p.dataSize = [(a : Int), b, c])
    (hsh : p.Shape = [(a : Int), b, c])
    (hd : d.length = a * b * c) :
    getDataset p d = some ([(a : Int), b, c], d) := by
  have h1 : prodI [(a : Int), b, c] = ((a * b * c : Nat) : Int) := by simp [prodI]
  simp only [getDataset, hds, hsh, h1, Int.toNat_natCast, ← hd, List.take_length]
  simp

/-- The axis-order comprehension over a 3-element `dataSize` succeeds, one
defaulted lookup per axis value, when every axis value is in {1,2,3}. -/
theorem npGetAll_eq_map (l : List Int) (a b c : Int)
    (hl : ∀ x ∈ l, x = 1 ∨ x = 2 ∨ x = 3) :
    npGetAll [a, b, c] l =
      some (l.map (fun x => [a, b, c].getD (x - 1).toNat 0)) := by
  induction l with
  | nil => rfl
  | cons y ys ih =>
    have hy := hl y (List.mem_cons_self _ _)
    have hys : ∀ x ∈ ys, x = 1 ∨ x = 2 ∨ x = 3 :=
      fun x hx => hl x (List.mem_cons_of_mem _ hx)
    rcases hy with rfl | rfl | rfl <;>
      simp [npGetAll, ih hys, npGet]

/-- Setting indices 0, 1, 2 of a 3-element list replaces it wholesale. -/
theorem set_three_eq (l : List Rat) (hl : l.length = 3) (u v w : Rat) :
    ((l.set 0 u).set 1 v).set 2 w = [u, v, w] := by
  obtain ⟨a, b, c, rfl⟩ := List.length_eq_three.mp hl
  rfl

/-! ## Claim theorems -/

/-- C1: write/read round-trip.  For every supported sample type, every shape
`(n1,n2,n3)` with each dimension at least 1, every C-contiguous sample
stream of matching length and every 3-element voxel size, `mrcWriter`
succeeds, `parseHeader` decodes the written header (for any int32
reinterpretation `mm` of the float min/max/mean bytes), the data offset is
1024 (where the writer put the samples), and `getDataset` returns the
original shape and the original samples. -/
theorem mrc_write_read_roundtrip
    (n1 n2 n3 : Nat) (h1 : 1 ≤ n1) (h2 : 1 ≤ n2) (h3 : 1 ≤ n3)
    (dtype : NPDType) (hdt : dtype ≠ NPDType.other)
    (stack : List Rat) (hlen : stack.length = n1 * n2 * n3)
    (pixelSize : List Rat) (hp3 : pixelSize.length = 3)
    (forceWrite : Bool) (mm : List Int) :
    ∃ w p, mrcWriter [n1, n2, n3] dtype true stack pixelSize forceWrite = Except.ok w ∧
      parseHeader (rawOfWritten w mm) = some p ∧
      p.dataOffset = 1024 ∧
      getDataset p w.data = some ([(n1 : Int), n2, n3], stack) := by
  match pixelSize, hp3 with
  | [p0, p1, p2], _ =>
  match stack, hlen with
  | [], hlen =>
    exact absurd hlen.symm (Nat.pos_iff_ne_zero.mp (Nat.mul_pos (Nat.mul_pos h1 h2) h3))
  | x :: xs, hlen =>
  cases forceWrite <;> cases dtype <;> first
    | exact absurd rfl hdt
    | exact ⟨_, _, rfl, rfl, rfl, getDataset_of_lengths _ _ n1 n2 n3 rfl rfl hlen⟩

/-- C1 witness: a concrete 1×1×2 float32 round-trip. -/
theorem mrc_write_read_roundtrip_witness :
    ∃ w p, mrcWriter [1, 1, 2] NPDType.float32 true [5, 7] [1, 1, 1] false = Except.ok w ∧
      parseHeader (rawOfWritten w [0, 0, 0]) = some p ∧
      p.dataOffset = 1024 ∧
      getDataset p w.data = some ([(1 : Int), 1, 2], [5, 7]) :=
  mrc_write_read_roundtrip 1 1 2 (by decide) (by decide) (by decide)
    NPDType.float32 (by decide) [5, 7] (by decide) [1, 1, 1] (by decide) false [0, 0, 0]

/-- C2 counterexample: the claim's `dataOffset = 1024 + extensionWordCount*4`
fails on the code.  On a header whose `extra[1]` word is 4, the decoder
produces `dataOffset = 1028 = 1024 + 4`, not `1024 + 4*4 = 1040`. -/
theorem dataOffset_word_scaling_counterexample :
    ∃ p, parseHeader rawExt4 = some p ∧ rawExt4.extra[1]? = some 4 ∧
      p.dataOffset = 1028 ∧ p.dataOffset ≠ 1024 + 4 * 4 :=
  ⟨_, rfl, rfl, rfl, by decide⟩

/-- C2 (amended): for every decoded file, `dataOffset` equals 1024 plus the
int32 at word index 1 of the 34-word extra block, used directly as a byte
count (no multiplication by 4). -/
theorem dataOffset_eq_1024_add_extra1 (h : RawHeader) (p : ParsedMRC) (e : Int)
    (he : h.extra[1]? = some e) (hp : parseHeader h = some p) :
    p.dataOffset = 1024 + e := by
  simp only [parseHeader, he] at hp
  split at hp
  · exact Option.noConfusion hp
  · split at hp
    · exact Option.noConfusion hp
    · split at hp
      · exact Option.noConfusion hp
      · split at hp
        · split at hp
          · exact Option.noConfusion hp
          · obtain rfl := Option.some.inj hp
            rfl
        · obtain rfl := Option.some.inj hp
          rfl

/-- C2 witness: the amended invariant evaluated on `rawExt4`. -/
theorem dataOffset_eq_1024_add_extra1_witness :
    ∃ p, parseHeader rawExt4 = some p ∧ p.dataOffset = 1024 + 4 :=
  ⟨_, rfl, dataOffset_eq_1024_add_extra1 rawExt4 _ 4 rfl rfl⟩

/-- C3: every type code outside {0,1,2,6} (including the complex codes 3 and
4) makes the dtype lookup fail, and any header carrying such a code at word
3 makes the whole decode fail — it never continues with a defaulted dtype;
on {0,1,2,6} the mapping is exactly 0→int8, 1→int16, 2→float32, 6→uint16. -/
theorem unsupported_mrcType_rejected (c : Int) :
    (c ∉ ([0, 1, 2, 6] : List Int) → _getMRCType c = none ∧
      ∀ h : RawHeader, h.head1[3]? = some c → parseHeader h = none) ∧
    (_getMRCType 0 = some MRCDataType.int8 ∧ _getMRCType 1 = some MRCDataType.int16 ∧
      _getMRCType 2 = some MRCDataType.float32 ∧ _getMRCType 6 = some MRCDataType.uint16) := by
  constructor
  · intro hc
    have h0 : ¬ c = 0 := fun e => hc (by simp [e])
    have h1 : ¬ c = 1 := fun e => hc (by simp [e])
    have h2 : ¬ c = 2 := fun e => hc (by simp [e])
    have h6 : ¬ c = 6 := fun e => hc (by simp [e])
    have hnone : _getMRCType c = none := by
      simp [_getMRCType, h0, h1, h2, h6]
    refine ⟨hnone, fun h hh => ?_⟩
    simp [parseHeader, hh, hnone]
  · exact ⟨rfl, rfl, rfl, rfl⟩

/-- C3 witness: the complex code 3 is rejected and code 0 maps to int8. -/
theorem unsupported_mrcType_rejected_witness :
    _getMRCType 3 = none ∧ _getMRCType 0 = some MRCDataType.int8 :=
  ⟨((unsupported_mrcType_rejected 3).1 (by decide)).1,
    (unsupported_mrcType_rejected 3).2.1⟩

/-- C4: for every decoded header whose axis order is a permutation of
{1,2,3}, the decoded shape is the file-order dims permuted by the axis
order (1-based, `shape[i] = dims[axisOrder[i]-1]`) and then fully
reversed. -/
theorem shape_is_permuted_dims_reversed (h : RawHeader) (p : ParsedMRC)
    (hlen : h.head1.length = 10)
    (hperm : h.axisOrientations.Perm [1, 2, 3])
    (hp : parseHeader h = some p) :
    p.Shape = (h.axisOrientations.map
        (fun x => (h.head1.take 3).getD (x - 1).toNat 0)).reverse := by
  have h3 : (h.head1.take 3).length = 3 := by simp [hlen]
  obtain ⟨a, b, c, habc⟩ := List.length_eq_three.mp h3
  have hmem : ∀ x ∈ h.axisOrientations, x = 1 ∨ x = 2 ∨ x = 3 := by
    intro x hx
    simpa using hperm.mem_iff.mp hx
  have hm := npGetAll_eq_map h.axisOrientations a b c hmem
  rw [habc]
  simp only [parseHeader, habc, hm] at hp
  split at hp
  · exact Option.noConfusion hp
  · split at hp
    · exact Option.noConfusion hp
    · split at hp
      · exact Option.noConfusion hp
      · split at hp
        · split at hp
          · exact Option.noConfusion hp
          · obtain rfl := Option.some.inj hp
            rfl
        · obtain rfl := Option.some.inj hp
          rfl

/-- C4 witness: file dims [4,5,6] with axis order [1,2,3] decode to shape
[6,5,4], the claim's example. -/
theorem shape_is_permuted_dims_reversed_witness :
    ∃ p, parseHeader rawPlain = some p ∧ p.Shape = [6, 5, 4] :=
  ⟨_, rfl, (shape_is_permuted_dims_reversed rawPlain _ rfl (by decide) rfl).trans
    (by decide)⟩

/-- C5 counterexample: the claim's "all-zero cellVolume or gridSize gives
voxelSize [1,1,1] regardless of the other header contents" fails when a
vendor extension is present: on `rawZeroGridExt` (all-zero cell volume and
grid, `extra[1] = 60`, vendor `pixel_size = 2`) the decoded voxelSize is
`[1, 2e10, 2e10]`, not `[1,1,1]`. -/
theorem voxelSize_default_not_unconditional :
    ∃ p, parseHeader rawZeroGridExt = some p ∧
      allZeroR (rawZeroGridExt.head2.take 3) = true ∧
      allZeroI ((rawZeroGridExt.head1.drop 7).take 3) = true ∧
      p.voxelSize = [1, 2 * 10000000000, 2 * 10000000000] ∧
      ([1, 2 * 10000000000, 2 * 10000000000] : List Rat) ≠ [1, 1, 1] := by
  refine ⟨_, rfl, rfl, rfl, rfl, ?_⟩
  intro hv
  have h2 : (2 * 10000000000 : Rat) = 1 := by
    injection hv with h hv2
    injection hv2 with h2 hv3
  norm_num at h2

/-- C5 (amended): with no vendor extension present (`extra[1] = 0`), an
all-zero cell volume or an all-zero grid size yields decoded voxelSize
`[1,1,1]` regardless of the other header contents, and otherwise the
decoded voxelSize is the elementwise quotient cellVolume/gridSize (computed
in file order, then reversed like every decoded field). -/
theorem voxelSize_derivation_no_vendor_block (h : RawHeader) (p : ParsedMRC)
    (hext : h.extra[1]? = some 0)
    (hp : parseHeader h = some p) :
    (allZeroR (h.head2.take 3) = true ∨ allZeroI ((h.head1.drop 7).take 3) = true →
      p.voxelSize = [1, 1, 1]) ∧
    (¬ (allZeroR (h.head2.take 3) = true ∨ allZeroI ((h.head1.drop 7).take 3) = true) →
      p.voxelSize = (List.zipWith (fun a b => a / b) (h.head2.take 3)
        (((h.head1.drop 7).take 3).map (fun z => (z : Rat)))).reverse) := by
  simp only [parseHeader, hext] at hp
  split at hp
  · exact Option.noConfusion hp
  · split at hp
    · exact Option.noConfusion hp
    · split at hp
      · exact Option.noConfusion hp
      · obtain rfl := Option.some.inj hp
        constructor
        · intro hz
          have hc : (allZeroR (h.head2.take 3) ||
              allZeroI ((h.head1.drop 7).take 3)) = true := by
            rcases hz with hz | hz <;> simp [hz]
          simp [hc]
        · intro hz
          have hc : (allZeroR (h.head2.take 3) ||
              allZeroI ((h.head1.drop 7).take 3)) = false := by
            rcases Bool.eq_false_or_eq_true (allZeroR (h.head2.take 3)) with ha | ha <;>
              rcases Bool.eq_false_or_eq_true (allZeroI ((h.head1.drop 7).take 3)) with hb | hb <;>
              simp_all
          simp [hc]

/-- C5 witness: `rawZeroGrid` (all-zero grid, no extension) decodes to
voxelSize [1,1,1]. -/
theorem voxelSize_derivation_no_vendor_block_witness :
    ∃ p, parseHeader rawZeroGrid = some p ∧ p.voxelSize = [1, 1, 1] :=
  ⟨_, rfl, (voxelSize_derivation_no_vendor_block rawZeroGrid _ rfl rfl).1
    (Or.inr (by decide))⟩

/-- C6: whenever the extension word count is nonzero and the decode
succeeds, at least the 15 vendor float32 words were present to be read, and
the decoded voxelSize is exactly `[1, pixel_size*1e10, pixel_size*1e10]`
(`pixel_size` = vendor word 11), overriding whatever was derived from
cellVolume and gridSize. -/
theorem vendor_extension_overrides_voxelSize (h : RawHeader) (p : ParsedMRC) (e : Int)
    (h1 : h.head1.length = 10) (h2 : h.head2.length = 6)
    (hext : h.extra[1]? = some e) (he : e ≠ 0)
    (hp : parseHeader h = some p) :
    15 ≤ h.fei.length ∧
    p.voxelSize = [1, h.fei.getD 11 0 * 10000000000,
      h.fei.getD 11 0 * 10000000000] := by
  simp only [parseHeader, hext] at hp
  split at hp
  · exact Option.noConfusion hp
  · split at hp
    · exact Option.noConfusion hp
    · split at hp
      · exact Option.noConfusion hp
      · split at hp
        · split at hp
          · exact Option.noConfusion hp
          · obtain rfl := Option.some.inj hp
            refine ⟨by omega, ?_⟩
            rw [set_three_eq]
            simp only [List.length_reverse]
            split <;> simp [List.length_zipWith, h1, h2]
        · exfalso
          omega

/-- C6 witness: `rawExtPs` (extension present, vendor pixel_size 3) decodes
to voxelSize `[1, 3e10, 3e10]`. -/
theorem vendor_extension_overrides_voxelSize_witness :
    ∃ p, parseHeader rawExtPs = some p ∧
      p.voxelSize = [1, 3 * 10000000000, 3 * 10000000000] :=
  ⟨_, rfl, (vendor_extension_overrides_voxelSize rawExtPs _ 128 rfl rfl rfl
    (by decide) rfl).2⟩

set_option maxRecDepth 4000 in
/-- C7: every successful write stores `min`, `max` and `mean` of the full
sample array as the three float32 header words at word indices 19, 20, 21 —
byte offsets 76, 80, 84, immediately after the axis-order ints ending at
byte 75. -/
theorem writer_min_max_mean_words (shape : List Nat) (dtype : NPDType)
    (cContiguous : Bool) (stack : List Rat) (pixelSize : List Rat) (forceWrite : Bool)
    (w : WrittenMRC)
    (hw : mrcWriter shape dtype cContiguous stack pixelSize forceWrite = Except.ok w) :
    (headerWords w)[19]? = some (HWord.f (listMin stack)) ∧
    (headerWords w)[20]? = some (HWord.f (listMax stack)) ∧
    (headerWords w)[21]? = some (HWord.f (listMean stack)) := by
  cases stack with
  | nil =>
    simp only [mrcWriter] at hw
    repeat' split at hw
    any_goals exact Except.noConfusion hw
  | cons x xs =>
    simp only [mrcWriter] at hw
    repeat' split at hw
    any_goals exact Except.noConfusion hw
    all_goals obtain rfl := Except.ok.inj hw
    all_goals exact ⟨rfl, rfl, rfl⟩

/-- C7 witness: the claim's scenario — a 2×2×2 float32 array with values
1..8 writes min 1.0, max 8.0, mean 4.5 at words 19, 20, 21. -/
theorem writer_min_max_mean_words_witness :
    ∃ w, mrcWriter [2, 2, 2] NPDType.float32 true [1, 2, 3, 4, 5, 6, 7, 8]
        [1, 1, 1] false = Except.ok w ∧
      (headerWords w)[19]? = some (HWord.f 1) ∧
      (headerWords w)[20]? = some (HWord.f 8) ∧
      (headerWords w)[21]? = some (HWord.f (9 / 2)) := by
  refine ⟨_, rfl, ?_, ?_, ?_⟩
  · refine (writer_min_max_mean_words [2, 2, 2] NPDType.float32 true
      [1, 2, 3, 4, 5, 6, 7, 8] [1, 1, 1] false _ rfl).1.trans ?_
    norm_num [listMin, min_def]
  · refine (writer_min_max_mean_words [2, 2, 2] NPDType.float32 true
      [1, 2, 3, 4, 5, 6, 7, 8] [1, 1, 1] false _ rfl).2.1.trans ?_
    norm_num [listMax, max_def]
  · refine (writer_min_max_mean_words [2, 2, 2] NPDType.float32 true
      [1, 2, 3, 4, 5, 6, 7, 8] [1, 1, 1] false _ rfl).2.2.trans ?_
    norm_num [listMean]

/-- C8 counterexample: the claim's "every non-3-dimensional input fails with
a DimensionError" is false for arrays of fewer than 3 dimensions: a
2-dimensional input slips past the `> 3` check and dies on `stack.shape[2]`
with an IndexError (after the zero header block was already written), not on
the "Too many dimensions" path. -/
theorem writer_2d_not_dimensionError :
    mrcWriter [2, 2] NPDType.float32 true [1, 2, 3, 4] [1, 1, 1] false =
      Except.error WriteErr.indexError ∧
    WriteErr.indexError ≠ WriteErr.dimensionError :=
  ⟨rfl, by decide⟩

/-- C8 (amended): the writer requires a 3-dimensional array and never
produces output otherwise, but only the more-than-3 case takes the
DimensionError path; fewer than 3 dimensions (with the contiguity check
passed) fails with an IndexError instead.  No sample data is written in
either case. -/
theorem writer_non3d_always_fails (shape : List Nat) (dtype : NPDType)
    (cContiguous : Bool) (stack : List Rat) (pixelSize : List Rat)
    (forceWrite : Bool) (hne : shape.length ≠ 3) :
    (3 < shape.length →
      mrcWriter shape dtype cContiguous stack pixelSize forceWrite =
        Except.error WriteErr.dimensionError) ∧
    (shape.length < 3 → cContiguous = true →
      mrcWriter shape dtype cContiguous stack pixelSize forceWrite =
        Except.error WriteErr.indexError) ∧
    (∀ w, mrcWriter shape dtype cContiguous stack pixelSize forceWrite ≠ Except.ok w) := by
  rcases Nat.lt_or_ge shape.length 3 with hlt | hge
  · have hngt : ¬ shape.length > 3 := by omega
    have hnone : shape[2]? = none := by
      rw [List.getElem?_eq_none_iff]
      omega
    refine ⟨fun hgt => absurd hgt hngt, fun _ hc => ?_, fun w => ?_⟩
    · subst hc
      simp [mrcWriter, hnone, hngt]
    · cases cContiguous with
      | false => simp [mrcWriter, hngt]
      | true => simp [mrcWriter, hnone, hngt]
  · have hgt : 3 < shape.length := by omega
    have hdim : mrcWriter shape dtype cContiguous stack pixelSize forceWrite =
        Except.error WriteErr.dimensionError := by
      simp [mrcWriter, hgt]
    exact ⟨fun _ => hdim, fun hlt _ => absurd hlt (by omega), fun w => by simp [hdim]⟩

/-- C8 witness: a 1-dimensional array fails with an IndexError. -/
theorem writer_non3d_always_fails_witness :
    mrcWriter [5] NPDType.int8 true [1] [1, 1, 1] false =
      Except.error WriteErr.indexError :=
  (writer_non3d_always_fails [5] NPDType.int8 true [1] [1, 1, 1] false
    (by decide)).2.1 (by decide) rfl

/-- C9 (code bug evaluated): `fileMRC.__del__` closes only when `self.fid`
is falsy, so a real open handle stays open after destruction on the normal
path, and the only branch that would call `close` operates on `None` and
raises AttributeError — the handle is never closed on any path, contrary to
the claim that every exit path closes it. -/
theorem del_never_closes_open_handle :
    fileMRC_del (some false) = Except.ok (some false) ∧
    fileMRC_del none = Except.error PyErr.attributeError :=
  ⟨rfl, rfl⟩

/-- C10: `forceWrite` never changes the writer's output: the contiguity
check precedes the branch, and on the C-contiguous arrays that reach it
`np.ascontiguousarray` is the identity, so the two flag values produce
identical results on every input. -/
theorem forceWrite_output_invariant (shape : List Nat) (dtype : NPDType)
    (cContiguous : Bool) (stack : List Rat) (pixelSize : List Rat) :
    mrcWriter shape dtype cContiguous stack pixelSize true =
      mrcWriter shape dtype cContiguous stack pixelSize false := rfl

end MRC
